import Mathlib

/-!
Shallow embedding of the availability-detection pipeline of the
Lincoln Commons apartment monitor:

* `scraper.py` (`LincolnCommonsScraper`): element selection
  (`parse_apartments`), per-element classification and filtering
  (`_extract_apartment_info`), and the check orchestration
  (`check_aro_one_bedroom_availability`);
* `notifications.py` (`NotificationManager`): channel configuration,
  message bodies, availability and error dispatch;
* `monitor.py` (`ApartmentMonitor.check_apartments`).

The external HTML parser (lxml via BeautifulSoup) is modelled by taking the
parsed document as a list of elements in document order, each carrying its
tag name, its `class` attribute and its full descendant text
(`element.get_text()`).  Network fetch and the SMTP/Twilio transports are
modelled as explicit parameters (`Option`/`Except` values).  Send attempts
are recorded as an explicit event trace so that "a channel was never
invoked" is a provable statement.
-/

namespace ApartmentMonitor

/-- One element of the parsed markup tree, as the scraper sees it: tag name,
`class` attribute (absent when the element has none) and full descendant
text. -/
structure Element where
  tag : String
  className : Option String
  text : String
deriving DecidableEq

/-- Python's substring test `needle in hay`, on character lists. -/
def occursIn (needle : List Char) : List Char → Bool
  | [] => needle.isEmpty
  | c :: t => needle.isPrefixOf (c :: t) || occursIn needle t

/-- Python's `needle in hay` on strings. -/
def strContains (hay needle : String) : Bool :=
  occursIn needle.data hay.data

/-- Python's `str.lower()` (ASCII case folding, which is all the keyword
matching relies on). -/
def lower (s : String) : String :=
  String.mk (s.data.map Char.toLower)

/-- `any(term in text for term in terms)`. -/
def containsAny (text : String) (terms : List String) : Bool :=
  terms.any (fun term => strContains text term)

/-- Keyword list for the one-bedroom axis (`scraper.py` line 78). -/
def one_bedroom_terms : List String :=
  ["1 bed", "1-bed", "one bed", "1br", "1 br"]

/-- Keyword list for the ARO axis (`scraper.py` line 80). -/
def aro_terms : List String :=
  ["aro", "affordable rental", "affordable housing"]

/-- Keyword list for the availability axis (`scraper.py` line 82). -/
def available_terms : List String :=
  ["available", "vacant", "ready"]

/-- Class-attribute keyword list used by the primary element selection
(`scraper.py` line 50). -/
def class_terms : List String :=
  ["apartment", "unit", "floor", "plan", "listing"]

/-- `is_one_bedroom` flag computed from the already lower-cased text. -/
def is_one_bedroom (text_content : String) : Bool :=
  containsAny text_content one_bedroom_terms

/-- `is_aro` flag computed from the already lower-cased text. -/
def is_aro (text_content : String) : Bool :=
  containsAny text_content aro_terms

/-- `available` flag computed from the already lower-cased text. -/
def is_available (text_content : String) : Bool :=
  containsAny text_content available_terms

/-- The class filter `lambda x: x and any(term in x.lower() for term in
[...])`: an absent or empty class attribute never matches. -/
def classMatches (cls : Option String) : Bool :=
  match cls with
  | none => false
  | some x => containsAny (lower x) class_terms

/-- Primary selection `soup.find_all(['div', 'section'], class_=...)`
(`scraper.py` lines 47-51): tag must be `div` or `section` and the class
attribute must match the keyword filter. -/
def primary_selection (doc : List Element) : List Element :=
  doc.filter (fun e => (e.tag == "div" || e.tag == "section") && classMatches e.className)

/-- Fallback selection `soup.find_all(['div', 'article', 'section'])`
(`scraper.py` line 55): every element with one of these tags, unfiltered. -/
def fallback_selection (doc : List Element) : List Element :=
  doc.filter (fun e => e.tag == "div" || e.tag == "article" || e.tag == "section")

/-- The element selection of `parse_apartments` (`scraper.py` lines 47-55):
primary keyword-filtered selection, falling back to the broad selection
exactly when the primary one is empty. -/
def select_apartment_elements (doc : List Element) : List Element :=
  let apartment_elements := primary_selection doc
  if apartment_elements.isEmpty then fallback_selection doc else apartment_elements

/-- The dictionary built by `_extract_apartment_info` (`scraper.py` lines
75-84).  `raw_html` holds the element whose serialization
(`str(element)`, done by the external library) the source stores. -/
structure ApartmentInfo where
  element_text : String
  is_one_bedroom : Bool
  is_aro : Bool
  available : Bool
  raw_html : Element
deriving DecidableEq

/-- `_extract_apartment_info` (`scraper.py` lines 69-94): classify the
element's lower-cased text on the three axes and keep the record only when
it is a one-bedroom or an ARO candidate. -/
def extract_apartment_info (element : Element) : Option ApartmentInfo :=
  let text_content := lower element.text
  let apartment_info : ApartmentInfo :=
    { element_text := text_content
      is_one_bedroom := is_one_bedroom text_content
      is_aro := is_aro text_content
      available := is_available text_content
      raw_html := element }
  if apartment_info.is_one_bedroom || apartment_info.is_aro then
    some apartment_info
  else
    none

/-- `parse_apartments` (`scraper.py` lines 39-67): select elements, extract
per-element records, keep the non-`None` ones in document order. -/
def parse_apartments (doc : List Element) : List ApartmentInfo :=
  (select_apartment_elements doc).filterMap extract_apartment_info

/-- The result dictionary of `check_aro_one_bedroom_availability`
(`scraper.py` lines 98-103). -/
structure CheckResult where
  available : Bool
  apartments : List ApartmentInfo
  error : Option String
  timestamp : Option String
deriving DecidableEq

/-- `check_aro_one_bedroom_availability` (`scraper.py` lines 96-133).
`parseHtml` stands for the external HTML parser turning markup into the
element list; `fetched` is the outcome of `fetch_page` (`None` on any
request error).  `if not html_content` also treats an empty body as a
failed fetch. -/
def check_aro_one_bedroom_availability (parseHtml : String → List Element)
    (fetched : Option String) (now : String) : CheckResult :=
  match fetched with
  | none =>
      { available := false, apartments := [],
        error := some "Failed to fetch page content", timestamp := some now }
  | some html_content =>
      if html_content.isEmpty then
        { available := false, apartments := [],
          error := some "Failed to fetch page content", timestamp := some now }
      else
        let apartments := parse_apartments (parseHtml html_content)
        let aro_one_bedroom_available :=
          apartments.filter (fun apt => apt.is_one_bedroom && apt.is_aro && apt.available)
        { available := decide (0 < aro_one_bedroom_available.length),
          apartments := aro_one_bedroom_available,
          error := none,
          timestamp := some now }

/-- The configuration fields read by `NotificationManager`
(`config.py`): each is an environment variable, absent or a string. -/
structure Config where
  email_username : Option String
  email_password : Option String
  email_to : Option String
  twilio_account_sid : Option String
  twilio_auth_token : Option String
  twilio_from_number : Option String
  twilio_to_number : Option String
deriving DecidableEq

/-- Python truthiness of an optional string: `None` and `""` are falsy. -/
def truthy : Option String → Bool
  | none => false
  | some s => !s.isEmpty

/-- `_check_email_config` (`notifications.py` lines 27-33):
`all([EMAIL_USERNAME, EMAIL_PASSWORD, EMAIL_TO])`. -/
def check_email_config (c : Config) : Bool :=
  truthy c.email_username && truthy c.email_password && truthy c.email_to

/-- `_check_sms_config` (`notifications.py` lines 35-45): requires the
Twilio import to have succeeded and all four Twilio settings truthy. -/
def check_sms_config (twilio_available : Bool) (c : Config) : Bool :=
  twilio_available &&
    (truthy c.twilio_account_sid && truthy c.twilio_auth_token &&
     truthy c.twilio_from_number && truthy c.twilio_to_number)

/-- The per-channel configured flags computed once in
`NotificationManager.__init__`. -/
structure NotificationManager where
  email_configured : Bool
  sms_configured : Bool
deriving DecidableEq

/-- `NotificationManager.__init__` (`notifications.py` lines 23-25). -/
def NotificationManager.init (twilio_available : Bool) (c : Config) : NotificationManager :=
  { email_configured := check_email_config c
    sms_configured := check_sms_config twilio_available c }

/-- A transport attempt actually performed by the dispatcher: an
availability email, an availability SMS, or an error email. -/
inductive NotifAttempt where
  | availEmail
  | availSms
  | errorEmail
deriving DecidableEq

/-- `config.LINCOLN_COMMONS_URL` (`config.py` line 9). -/
def LINCOLN_COMMONS_URL : String :=
  "https://www.lincolncommonapartments.com/floorplans"

/-- The per-unit line appended for each apartment in `_create_email_body`
(`notifications.py` line 116). -/
def email_item (i : Nat) : String :=
  "<li><strong>Unit " ++ toString i ++ ":</strong> ARO One-bedroom apartment available</li>"

/-- Opening of the email body up to the interpolated count
(`notifications.py` lines 105-109). -/
def email_header_pre : String :=
  "\n        <html>\n        <body>\n            <h2>🏠 Great News! ARO One-Bedroom Apartment(s) Available!</h2>\n            <p>We found <strong>"

/-- Email body between the count and the per-unit list
(`notifications.py` lines 109-113). -/
def email_header_post : String :=
  "</strong> available ARO one-bedroom apartment(s) at Lincoln Commons!</p>\n            \n            <h3>Details:</h3>\n            <ul>\n        "

/-- Email footer up to the first interpolated URL
(`notifications.py` lines 118-123). -/
def email_footer_pre : String :=
  "\n            </ul>\n            \n            <p><strong>Next Steps:</strong></p>\n            <ol>\n                <li>Visit the Lincoln Commons website: <a href=\""

/-- Email footer between the two interpolated URLs. -/
def email_footer_mid : String :=
  "\">"

/-- Email footer after the second interpolated URL
(`notifications.py` lines 123-131). -/
def email_footer_post : String :=
  "</a></li>\n                <li>Contact Lincoln Commons directly to inquire about the ARO one-bedroom units</li>\n                <li>Act quickly as these units may be claimed fast!</li>\n            </ol>\n            \n            <p><em>This is an automated notification from the Lincoln Commons Apartment Monitor.</em></p>\n        </body>\n        </html>\n        "

/-- `_create_email_body` (`notifications.py` lines 101-133): the f-string
template with the apartment count and the site URL interpolated, plus one
`<li>` line per apartment (`enumerate(apartments, 1)`). -/
def create_email_body (apartments : List ApartmentInfo) : String :=
  let apartment_count := apartments.length
  email_header_pre ++ toString apartment_count ++ email_header_post
    ++ String.join ((List.range apartment_count).map (fun i => email_item (i + 1)))
    ++ email_footer_pre ++ LINCOLN_COMMONS_URL ++ email_footer_mid
    ++ LINCOLN_COMMONS_URL ++ email_footer_post

/-- `_create_sms_body` (`notifications.py` lines 135-142). -/
def create_sms_body (apartments : List ApartmentInfo) : String :=
  "🏠 ALERT: " ++ toString apartments.length
    ++ " ARO one-bedroom apartment(s) available at Lincoln Commons! Check now: "
    ++ LINCOLN_COMMONS_URL

/-- `send_email_notification` (`notifications.py` lines 47-75): skip when
the channel is unconfigured; otherwise attempt the SMTP transport once,
turning any transport exception into `false`.  The second component records
the attempt actually made. -/
def send_email_notification (mgr : NotificationManager)
    (transport : Except String Unit) (apartments : List ApartmentInfo) :
    Bool × List NotifAttempt :=
  if !mgr.email_configured then
    (false, [])
  else
    match transport with
    | Except.ok _ => (true, [NotifAttempt.availEmail])
    | Except.error _ => (false, [NotifAttempt.availEmail])

/-- `send_sms_notification` (`notifications.py` lines 77-99): same shape on
the Twilio transport. -/
def send_sms_notification (mgr : NotificationManager)
    (transport : Except String Unit) (apartments : List ApartmentInfo) :
    Bool × List NotifAttempt :=
  if !mgr.sms_configured then
    (false, [])
  else
    match transport with
    | Except.ok _ => (true, [NotifAttempt.availSms])
    | Except.error _ => (false, [NotifAttempt.availSms])

/-- The `results` dictionary of `notify_availability`
(`notifications.py` lines 146-149). -/
structure NotifyResult where
  email_sent : Bool
  sms_sent : Bool
deriving DecidableEq

/-- `notify_availability` (`notifications.py` lines 144-158): with a
non-empty list, try email then SMS; with an empty list, do nothing. -/
def notify_availability (mgr : NotificationManager)
    (email_transport sms_transport : Except String Unit)
    (apartments : List ApartmentInfo) : NotifyResult × List NotifAttempt :=
  if apartments.isEmpty then
    ({ email_sent := false, sms_sent := false }, [])
  else
    let e := send_email_notification mgr email_transport apartments
    let s := send_sms_notification mgr sms_transport apartments
    ({ email_sent := e.1, sms_sent := s.1 }, e.2 ++ s.2)

/-- `send_error_notification` (`notifications.py` lines 160-195): email
channel only; skip when unconfigured, otherwise one transport attempt with
exceptions folded into `false`. -/
def send_error_notification (mgr : NotificationManager)
    (transport : Except String Unit) (error_message : String) :
    Bool × List NotifAttempt :=
  if !mgr.email_configured then
    (false, [])
  else
    match transport with
    | Except.ok _ => (true, [NotifAttempt.errorEmail])
    | Except.error _ => (false, [NotifAttempt.errorEmail])

/-- Truthiness of the check result's error field, as tested by
`if result.get('error')` in `monitor.py` line 50. -/
def error_text : Option String → String
  | some e => e
  | none => ""

/-- `ApartmentMonitor.check_apartments` (`monitor.py` lines 42-80): run the
check; on a (truthy) error send the error notification and return; on
available apartments dispatch the availability notifications and attach the
outcome.  The third component is the trace of transport attempts. -/
def check_apartments (mgr : NotificationManager)
    (email_transport sms_transport : Except String Unit)
    (parseHtml : String → List Element) (fetched : Option String) (now : String) :
    CheckResult × Option NotifyResult × List NotifAttempt :=
  let result := check_aro_one_bedroom_availability parseHtml fetched now
  if !(error_text result.error).isEmpty then
    (result, none, (send_error_notification mgr email_transport (error_text result.error)).2)
  else if result.apartments.isEmpty then
    (result, none, [])
  else
    let n := notify_availability mgr email_transport sms_transport result.apartments
    (result, some n.1, n.2)

/-! Definitions written from the specification's wording, for comparison
with the source-derived ones. -/

/-- The ARO keyword set as the specification states it (§4.3), including
`"rental opportunity"`. -/
def aro_terms_spec : List String :=
  ["aro", "affordable rental", "affordable housing", "rental opportunity"]

/-- `isARO` as the specification states it. -/
def is_aro_spec (text_content : String) : Bool :=
  containsAny text_content aro_terms_spec

/-- Element selection as the specification states it (§4.2): one container
tag set `div`/`section`/`article` for both the keyword-filtered primary
pass and the unfiltered fallback. -/
def primary_selection_spec (doc : List Element) : List Element :=
  doc.filter (fun e =>
    (e.tag == "div" || e.tag == "section" || e.tag == "article") && classMatches e.className)

/-- Selection-with-fallback as the specification states it. -/
def select_apartment_elements_spec (doc : List Element) : List Element :=
  let primary := primary_selection_spec doc
  if primary.isEmpty then fallback_selection doc else primary

/-- Whether the document has any container element (`div`, `article` or
`section`) at all. -/
def has_container_elements (doc : List Element) : Bool :=
  doc.any (fun e => e.tag == "div" || e.tag == "article" || e.tag == "section")

/-! Concrete sample inputs used by counterexamples and witnesses. -/

/-- An `article` whose class matches the keyword filter. -/
def articleApartment : Element := ⟨"article", some "apartment", "a"⟩

/-- A `div` whose class matches the keyword filter. -/
def divUnit : Element := ⟨"div", some "unit", "b"⟩

/-- A container element whose text has no one-bedroom and no ARO keyword. -/
def plainDiv : Element := ⟨"div", some "unit", "hello"⟩

/-- A container element describing an available ARO one-bedroom unit. -/
def aroDiv : Element := ⟨"div", some "unit", "ARO 1BR available"⟩

/-- The candidate record extracted from `aroDiv`. -/
def aroApt : ApartmentInfo := ⟨"aro 1br available", true, true, true, aroDiv⟩

/-- A paragraph element: not a container. -/
def paraElem : Element := ⟨"p", none, "x"⟩

/-- A parser producing no elements, for closed instances. -/
def emptyParse : String → List Element := fun _ => []

/-- A configuration with every channel credential present. -/
def fullConfig : Config :=
  ⟨some "user", some "pass", some "dest", some "sid", some "tok", some "from", some "to2"⟩

/-! Helper lemmas about the substring test. -/

/-- `occursIn` agrees with list-infix containment. -/
theorem occursIn_iff (needle : List Char) (hay : List Char) :
    occursIn needle hay = true ↔ needle <:+: hay := by
  induction hay with
  | nil =>
    simp [occursIn, List.isEmpty_iff]
  | cons c t ih =>
    simp [occursIn, List.isPrefixOf_iff_prefix, ih, List.infix_cons_iff]

/-- A string whose character data visibly decomposes around the needle
contains the needle. -/
theorem strContains_of_data_eq (hay needle : String) (p s : List Char)
    (h : hay.data = p ++ needle.data ++ s) : strContains hay needle = true := by
  rw [strContains, occursIn_iff, h]
  exact ⟨p, s, rfl⟩

/-! Claim theorems. -/

/-- Claim C1, counterexample: the candidate text `"rental opportunity"`
contains the spec's fourth keyword but none of the code's three, so the
code classifies it as not ARO while the claim requires ARO. -/
theorem c1_counterexample :
    is_aro "rental opportunity" = false ∧ is_aro_spec "rental opportunity" = true := by
  decide

/-- Claim C1 (amended): for every candidate produced by extraction, the
`is_aro` flag is true iff the lower-cased text contains one of `"aro"`,
`"affordable rental"`, `"affordable housing"` — `"rental opportunity"` is
not among the code's keywords. -/
theorem c1_is_aro_characterization (element : Element) (apartment_info : ApartmentInfo)
    (h : extract_apartment_info element = some apartment_info) :
    apartment_info.is_aro
      = (strContains apartment_info.element_text "aro"
         || strContains apartment_info.element_text "affordable rental"
         || strContains apartment_info.element_text "affordable housing") := by
  simp only [extract_apartment_info] at h
  split at h
  · injection h with h'
    subst h'
    simp [is_aro, containsAny, aro_terms, Bool.or_assoc]
  · exact absurd h (by simp)

/-- Claim C1 witness: the amended characterization at the concrete ARO
candidate. -/
theorem c1_witness :
    aroApt.is_aro
      = (strContains aroApt.element_text "aro"
         || strContains aroApt.element_text "affordable rental"
         || strContains aroApt.element_text "affordable housing") :=
  c1_is_aro_characterization aroDiv aroApt (by decide)

/-- Claim C2, counterexample: a document with one `div` container whose
text has neither keyword family makes extraction return `[]` even though a
container element exists. -/
theorem c2_counterexample :
    has_container_elements [plainDiv] = true ∧ parse_apartments [plainDiv] = [] := by
  decide

/-- Claim C2 (amended): extraction (a total function) returns `[]` whenever
no container element exists, and in general returns `[]` exactly when every
selected container yields no candidate record — which also happens when
containers exist but none of their texts contains a one-bedroom or ARO
keyword. -/
theorem c2_extract_empty_characterization (doc : List Element) :
    (has_container_elements doc = false → parse_apartments doc = []) ∧
    (parse_apartments doc = []
      ↔ ∀ e ∈ select_apartment_elements doc, extract_apartment_info e = none) := by
  constructor
  · intro h
    rw [has_container_elements, List.any_eq_false] at h
    have hfall : fallback_selection doc = [] := by
      rw [fallback_selection, List.filter_eq_nil_iff]
      exact h
    have hprim : primary_selection doc = [] := by
      rw [primary_selection, List.filter_eq_nil_iff]
      intro e he
      have h3 := h e he
      simp only [Bool.or_eq_true_iff, not_or, Bool.not_eq_true] at h3
      simp [h3.1.1, h3.2]
    simp [parse_apartments, select_apartment_elements, hprim, hfall]
  · rw [parse_apartments]
    exact List.filterMap_eq_nil_iff

/-- Claim C2 witness: the amended statement at a document with no container
elements. -/
theorem c2_witness : parse_apartments [paraElem] = [] :=
  (c2_extract_empty_characterization [paraElem]).1 (by decide)

/-- Claim C3: every check result satisfies the invariants — an error implies
not available with no units, availability implies non-empty units, and the
available flag equals the emptiness test on the unit list. -/
theorem c3_check_result_invariant (parseHtml : String → List Element)
    (fetched : Option String) (now : String) :
    ((check_aro_one_bedroom_availability parseHtml fetched now).error.isSome = true →
      (check_aro_one_bedroom_availability parseHtml fetched now).available = false ∧
      (check_aro_one_bedroom_availability parseHtml fetched now).apartments = []) ∧
    ((check_aro_one_bedroom_availability parseHtml fetched now).available = true →
      (check_aro_one_bedroom_availability parseHtml fetched now).apartments ≠ []) ∧
    (check_aro_one_bedroom_availability parseHtml fetched now).available
      = decide (0 < (check_aro_one_bedroom_availability parseHtml fetched now).apartments.length) := by
  rcases fetched with _ | html
  · simp [check_aro_one_bedroom_availability]
  · by_cases h : html.isEmpty
    · simp [check_aro_one_bedroom_availability, h]
    · refine ⟨?_, ?_, ?_⟩
      · simp [check_aro_one_bedroom_availability, h]
      · intro ha
        simp only [check_aro_one_bedroom_availability, h, Bool.false_eq_true, if_false,
          decide_eq_true_eq] at ha ⊢
        exact List.ne_nil_of_length_pos ha
      · simp [check_aro_one_bedroom_availability, h]

/-- Claim C3 witness: the error-implies-empty direction at a failed fetch. -/
theorem c3_witness :
    (check_aro_one_bedroom_availability emptyParse none "t").available = false ∧
    (check_aro_one_bedroom_availability emptyParse none "t").apartments = [] :=
  (c3_check_result_invariant emptyParse none "t").1 (by decide)

/-- Claim C4: with a failed fetch, the run produces a not-available result
with no units and a non-empty error message, never attaches an availability
outcome, never attempts either availability channel, and attempts the error
email exactly when the email channel is configured. -/
theorem c4_fetch_failure (mgr : NotificationManager)
    (email_transport sms_transport : Except String Unit)
    (parseHtml : String → List Element) (now : String) :
    (check_apartments mgr email_transport sms_transport parseHtml none now).1.available = false ∧
    (check_apartments mgr email_transport sms_transport parseHtml none now).1.apartments = [] ∧
    (∃ s, (check_apartments mgr email_transport sms_transport parseHtml none now).1.error = some s
            ∧ s ≠ "") ∧
    (check_apartments mgr email_transport sms_transport parseHtml none now).2.1 = none ∧
    NotifAttempt.availEmail ∉ (check_apartments mgr email_transport sms_transport parseHtml none now).2.2 ∧
    NotifAttempt.availSms ∉ (check_apartments mgr email_transport sms_transport parseHtml none now).2.2 ∧
    (check_apartments mgr email_transport sms_transport parseHtml none now).2.2
      = (if mgr.email_configured then [NotifAttempt.errorEmail] else []) := by
  have hne : ("Failed to fetch page content" : String).isEmpty = false := by decide
  rcases mgr with ⟨ec, sc⟩
  rcases email_transport with msg | u <;> cases ec <;>
    simp [check_apartments, check_aro_one_bedroom_availability, error_text,
      send_error_notification, hne]

/-- Claim C5: an unconfigured channel is skipped with no attempt and yields
false; a configured channel's transport error is absorbed into a false
outcome; and each channel's outcome is unchanged by the other channel's
configuration and transport. -/
theorem c5_channel_isolation (mgr : NotificationManager)
    (email_transport sms_transport : Except String Unit)
    (apartments : List ApartmentInfo) :
    (mgr.email_configured = false →
      send_email_notification mgr email_transport apartments = (false, [])) ∧
    (mgr.sms_configured = false →
      send_sms_notification mgr sms_transport apartments = (false, [])) ∧
    (∀ msg, email_transport = Except.error msg →
      (send_email_notification mgr email_transport apartments).1 = false) ∧
    (∀ msg, sms_transport = Except.error msg →
      (send_sms_notification mgr sms_transport apartments).1 = false) ∧
    (∀ (sms2 : Bool) (st2 : Except String Unit),
      (notify_availability mgr email_transport sms_transport apartments).1.email_sent
        = (notify_availability ⟨mgr.email_configured, sms2⟩ email_transport st2 apartments).1.email_sent) ∧
    (∀ (em2 : Bool) (et2 : Except String Unit),
      (notify_availability mgr email_transport sms_transport apartments).1.sms_sent
        = (notify_availability ⟨em2, mgr.sms_configured⟩ et2 sms_transport apartments).1.sms_sent) := by
  rcases mgr with ⟨ec, sc⟩
  refine ⟨?_, ?_, ?_, ?_, ?_, ?_⟩
  · intro h
    simp only at h
    simp [send_email_notification, h]
  · intro h
    simp only at h
    simp [send_sms_notification, h]
  · intro msg h
    subst h
    cases ec <;> simp [send_email_notification]
  · intro msg h
    subst h
    cases sc <;> simp [send_sms_notification]
  · intro sms2 st2
    by_cases h : apartments.isEmpty <;>
      simp [notify_availability, h, send_email_notification]
  · intro em2 et2
    by_cases h : apartments.isEmpty <;>
      simp [notify_availability, h, send_sms_notification]

/-- Claim C5 witness: the unconfigured-skip and transport-failure parts at
concrete channel states. -/
theorem c5_witness :
    send_email_notification ⟨false, false⟩ (Except.ok ()) [aroApt] = (false, []) ∧
    (send_sms_notification ⟨true, true⟩ (Except.error "boom") [aroApt]).1 = false :=
  ⟨(c5_channel_isolation ⟨false, false⟩ (Except.ok ()) (Except.ok ()) [aroApt]).1 rfl,
   (c5_channel_isolation ⟨true, true⟩ (Except.ok ()) (Except.error "boom") [aroApt]).2.2.2.1
     "boom" rfl⟩

/-- Claim C6, counterexample: on a document holding a keyword-classed
`article` and a keyword-classed `div`, the code's primary pass (which only
looks at `div`/`section`) keeps just the `div`, while the spec's uniform
tag set would keep both. -/
theorem c6_counterexample :
    select_apartment_elements [articleApartment, divUnit]
      ≠ select_apartment_elements_spec [articleApartment, divUnit] := by
  decide

/-- Claim C6 (amended): the primary pass selects exactly the `div`/`section`
elements whose class matches the keyword filter, and the unfiltered
fallback over `div`/`article`/`section` is used exactly when the primary
pass selects nothing — the two passes use different tag sets. -/
theorem c6_selection_fallback (doc : List Element) :
    (primary_selection doc ≠ [] → select_apartment_elements doc = primary_selection doc) ∧
    (primary_selection doc = [] → select_apartment_elements doc = fallback_selection doc) ∧
    (∀ e ∈ primary_selection doc,
      ((e.tag == "div" || e.tag == "section") && classMatches e.className) = true) ∧
    (∀ e ∈ fallback_selection doc,
      (e.tag == "div" || e.tag == "article" || e.tag == "section") = true) := by
  refine ⟨?_, ?_, ?_, ?_⟩
  · intro h
    simp [select_apartment_elements, List.isEmpty_iff, h]
  · intro h
    simp [select_apartment_elements, h]
  · intro e he
    exact (List.mem_filter.mp he).2
  · intro e he
    exact (List.mem_filter.mp he).2

/-- Claim C6 witness: the amended statement at a document where the primary
pass is non-empty. -/
theorem c6_witness : select_apartment_elements [divUnit] = primary_selection [divUnit] :=
  (c6_selection_fallback [divUnit]).1 (by decide)

/-- Claim C7: for a non-empty unit list, both rendered bodies contain the
rendered unit count and the configured site URL as substrings. -/
theorem c7_bodies_contain_count_and_url (apartments : List ApartmentInfo)
    (h : apartments ≠ []) :
    strContains (create_email_body apartments) (toString apartments.length) = true ∧
    strContains (create_email_body apartments) LINCOLN_COMMONS_URL = true ∧
    strContains (create_sms_body apartments) (toString apartments.length) = true ∧
    strContains (create_sms_body apartments) LINCOLN_COMMONS_URL = true := by
  refine ⟨?_, ?_, ?_, ?_⟩
  · exact strContains_of_data_eq _ _ email_header_pre.data
      ((email_header_post
        ++ String.join ((List.range apartments.length).map (fun i => email_item (i + 1)))
        ++ email_footer_pre ++ LINCOLN_COMMONS_URL ++ email_footer_mid
        ++ LINCOLN_COMMONS_URL ++ email_footer_post).data)
      (by simp [create_email_body, String.data_append, List.append_assoc])
  · exact strContains_of_data_eq _ _
      ((email_header_pre ++ toString apartments.length ++ email_header_post
        ++ String.join ((List.range apartments.length).map (fun i => email_item (i + 1)))
        ++ email_footer_pre).data)
      ((email_footer_mid ++ LINCOLN_COMMONS_URL ++ email_footer_post).data)
      (by simp [create_email_body, String.data_append, List.append_assoc])
  · exact strContains_of_data_eq _ _ ("🏠 ALERT: " : String).data
      ((" ARO one-bedroom apartment(s) available at Lincoln Commons! Check now: "
        ++ LINCOLN_COMMONS_URL).data)
      (by simp [create_sms_body, String.data_append, List.append_assoc])
  · exact strContains_of_data_eq _ _
      (("🏠 ALERT: " ++ toString apartments.length
        ++ " ARO one-bedroom apartment(s) available at Lincoln Commons! Check now: ").data)
      ([] : List Char)
      (by simp [create_sms_body, String.data_append, List.append_assoc])

/-- Claim C7 witness: both bodies for a single concrete unit. -/
theorem c7_witness :
    strContains (create_email_body [aroApt]) (toString ([aroApt] : List ApartmentInfo).length) = true ∧
    strContains (create_email_body [aroApt]) LINCOLN_COMMONS_URL = true ∧
    strContains (create_sms_body [aroApt]) (toString ([aroApt] : List ApartmentInfo).length) = true ∧
    strContains (create_sms_body [aroApt]) LINCOLN_COMMONS_URL = true :=
  c7_bodies_contain_count_and_url [aroApt] (by decide)

/-- Claim C8: dispatching an empty unit list returns both flags false and
attempts no channel. -/
theorem c8_notify_empty (mgr : NotificationManager)
    (email_transport sms_transport : Except String Unit) :
    notify_availability mgr email_transport sms_transport []
      = ({ email_sent := false, sms_sent := false }, []) :=
  rfl

/-- Claim C9: every candidate returned by extraction carries a one-bedroom
or an ARO keyword in its text; elements with neither never appear. -/
theorem c9_candidates_have_keyword (doc : List Element)
    (apartment_info : ApartmentInfo)
    (h : apartment_info ∈ parse_apartments doc) :
    apartment_info.is_one_bedroom = true ∨ apartment_info.is_aro = true := by
  rw [parse_apartments] at h
  obtain ⟨e, -, he⟩ := List.mem_filterMap.mp h
  simp only [extract_apartment_info] at he
  split at he
  next hcond =>
    injection he with he'
    subst he'
    simpa using hcond
  next =>
    exact absurd he (by simp)

/-- Claim C9 witness: the extracted ARO candidate at a concrete document. -/
theorem c9_witness : aroApt.is_one_bedroom = true ∨ aroApt.is_aro = true :=
  c9_candidates_have_keyword [aroDiv] aroApt (by decide)

/-- Claim C10: a dispatch outcome reports a successful send on a channel
only if that channel was configured at startup. -/
theorem c10_sent_implies_configured (twilio_available : Bool) (c : Config)
    (email_transport sms_transport : Except String Unit)
    (apartments : List ApartmentInfo) :
    ((notify_availability (NotificationManager.init twilio_available c)
        email_transport sms_transport apartments).1.email_sent = true →
      (NotificationManager.init twilio_available c).email_configured = true) ∧
    ((notify_availability (NotificationManager.init twilio_available c)
        email_transport sms_transport apartments).1.sms_sent = true →
      (NotificationManager.init twilio_available c).sms_configured = true) := by
  constructor
  · intro h
    by_cases he : apartments.isEmpty
    · simp [notify_availability, he] at h
    · by_contra hc
      rw [Bool.not_eq_true] at hc
      rcases email_transport with msg | u <;>
        simp [notify_availability, he, send_email_notification, hc] at h
  · intro h
    by_cases he : apartments.isEmpty
    · simp [notify_availability, he] at h
    · by_contra hc
      rw [Bool.not_eq_true] at hc
      rcases sms_transport with msg | u <;>
        simp [notify_availability, he, send_sms_notification, hc] at h

/-- Claim C10 witness: a successful concrete email send implies the email
channel was configured. -/
theorem c10_witness : (NotificationManager.init true fullConfig).email_configured = true :=
  (c10_sent_implies_configured true fullConfig (Except.ok ()) (Except.ok ()) [aroApt]).1
    (by decide)

end ApartmentMonitor
